import Mathlib

/-!
# Verification of the SVN-ED-Orrery orbital-mechanics core

This file gives a shallow embedding, over the exact reals, of the orbital-mechanics
and spatial-composition engine of the orrery:

* `physics.py` — `solve_kepler_equation`, `calculate_position_at_time`,
  `calculate_orbit_points`;
* `renderer.py` — `project_3d_to_2d`, the slider → time-acceleration map of
  `Orrery.handle_ui_event`, the depth sort of `process_api_data`, and the per-tick
  position composition with focus re-basing of `Orrery.update`;
* `config.py` — the screen/clamp constants;
* `main.py` — the per-frame simulated-time update.

Machine floats are modelled by real numbers; the single place where float
non-finiteness is semantically relevant (the screen-coordinate clamp) additionally
models the non-finite values explicitly (`FloatVal`).  Python `None` becomes
`Option`.  Definitions keep the source names and line-by-line structure; theorems
about the spec's claims follow the definitions.
-/

set_option maxHeartbeats 1000000

open Classical

/-- 3-component numpy arrays (`np.array([x, y, z])`) are modelled as triples of reals,
with componentwise addition and subtraction. -/
abbrev Vec3 : Type := ℝ × ℝ × ℝ

/-- Python's float modulo `x % y`: the remainder has the sign of the divisor;
for the divisors used here (`2π > 0`) it is `x - y * ⌊x / y⌋`. -/
noncomputable def pymod (x y : ℝ) : ℝ := x - y * ⌊x / y⌋

/-- `np.radians`: degrees to radians. -/
noncomputable def radians (deg : ℝ) : ℝ := deg * (Real.pi / 180)

/-- Python `int(...)` applied to a float: truncation toward zero. -/
noncomputable def pyint (v : ℝ) : ℤ := if 0 ≤ v then ⌊v⌋ else ⌈v⌉

/-- The Newton–Raphson loop of `solve_kepler_equation` (physics.py lines 77–92), with
the remaining iteration count as explicit fuel.  Each round computes
`f(E) = E - e·sin E - M` and `f'(E) = 1 - e·cos E`; if `|f'(E)| < 1e-10` the loop
breaks returning the current iterate; otherwise it steps `E ← E - f(E)/f'(E)` and
returns the new iterate as soon as `|ΔE| <` the tolerance.  If the fuel runs out the
last iterate is returned. -/
noncomputable def solveKeplerLoop (mean_anomaly_rad eccentricity tolerance : ℝ) :
    ℝ → ℕ → ℝ
  | E, 0 => E
  | E, n + 1 =>
    let f_E := E - eccentricity * Real.sin E - mean_anomaly_rad
    let fp_E := 1 - eccentricity * Real.cos E
    if |fp_E| < 1e-10 then E
    else
      let delta_E := f_E / fp_E
      let E' := E - delta_E
      if |delta_E| < tolerance then E'
      else solveKeplerLoop mean_anomaly_rad eccentricity tolerance E' n

/-- `solve_kepler_equation` (physics.py lines 47–92).  Initial guess `M` when
`e < 0.8`, else `π`; then the Newton–Raphson loop.  The Python defaults
`tolerance=1e-9`, `max_iterations=100` are passed explicitly by callers here. -/
noncomputable def solve_kepler_equation (mean_anomaly_rad eccentricity tolerance : ℝ)
    (max_iterations : ℕ) : ℝ :=
  solveKeplerLoop mean_anomaly_rad eccentricity tolerance
    (if eccentricity < 0.8 then mean_anomaly_rad else Real.pi) max_iterations

/-- An epoch timestamp string, modelled by the outcome of the `strptime` cascade of
`calculate_position_at_time` (physics.py lines 128–136): `parsed = some t0` when one of
the three accepted formats parses the string to the UTC timestamp `t0` (in seconds),
and `parsed = none` when parsing raises — the `except` branch then falls back to the
current query time. -/
structure EpochStr where
  parsed : Option ℝ

/-- Steps 1–7 of `calculate_position_at_time` (physics.py lines 121–188), after the
input validation has passed.  Timestamps are reals counting seconds, so
`(current_time_dt - t0_dt).total_seconds()` is plain subtraction.  `np.arctan2 y x`
is `Complex.arg ⟨x, y⟩` (both land in `(-π, π]` and send the origin to `0`). -/
noncomputable def keplerPositionCore (semi_major_axis eccentricity inclination_deg
    lon_asc_node_deg arg_periapsis_deg orbital_period_days mean_anomaly_epoch_deg : ℝ)
    (epoch_t0 : EpochStr) (current_time : ℝ) : Vec3 :=
  let i_rad := radians inclination_deg
  let omega_rad := radians arg_periapsis_deg
  let Omega_rad := radians lon_asc_node_deg
  let M0_rad := radians mean_anomaly_epoch_deg
  let t0 := epoch_t0.parsed.getD current_time
  let delta_t_days := (current_time - t0) / (24 * 60 * 60)
  let n_rad_per_day := 2 * Real.pi / orbital_period_days
  let M_wrapped := pymod (M0_rad + n_rad_per_day * delta_t_days) (2 * Real.pi)
  let current_M_rad := if M_wrapped < 0 then M_wrapped + 2 * Real.pi else M_wrapped
  let E_rad := solve_kepler_equation current_M_rad eccentricity 1e-9 100
  let cos_E := Real.cos E_rad
  let sin_E := Real.sin E_rad
  let sqrt_1_minus_e_sq := Real.sqrt (max 0 (1 - eccentricity ^ 2))
  let nu_rad := pymod (Complex.arg ⟨cos_E - eccentricity, sqrt_1_minus_e_sq * sin_E⟩)
    (2 * Real.pi)
  let r_au := semi_major_axis * (1 - eccentricity * cos_E)
  let xp := r_au * Real.cos nu_rad
  let yp := r_au * Real.sin nu_rad
  let x := xp * (Real.cos omega_rad * Real.cos Omega_rad -
        Real.sin omega_rad * Real.sin Omega_rad * Real.cos i_rad) -
      yp * (Real.sin omega_rad * Real.cos Omega_rad +
        Real.cos omega_rad * Real.sin Omega_rad * Real.cos i_rad)
  let y := xp * (Real.cos omega_rad * Real.sin Omega_rad +
        Real.sin omega_rad * Real.cos Omega_rad * Real.cos i_rad) +
      yp * (-(Real.sin omega_rad * Real.sin Omega_rad) +
        Real.cos omega_rad * Real.cos Omega_rad * Real.cos i_rad)
  let z := xp * (Real.sin omega_rad * Real.sin i_rad) +
      yp * (Real.cos omega_rad * Real.sin i_rad)
  (x, y, z)

/-- The input-validation guard of `calculate_position_at_time` (physics.py lines
114–119): some argument is `None`, or the orbital period equals 0. -/
def keplerInputsInvalid (semi_major_axis eccentricity inclination_deg lon_asc_node_deg
    arg_periapsis_deg orbital_period_days mean_anomaly_epoch_deg : Option ℝ)
    (epoch_t0_str : Option EpochStr) (current_time_dt : Option ℝ) : Prop :=
  semi_major_axis = none ∨ eccentricity = none ∨ inclination_deg = none ∨
    lon_asc_node_deg = none ∨ arg_periapsis_deg = none ∨ orbital_period_days = none ∨
    mean_anomaly_epoch_deg = none ∨ epoch_t0_str = none ∨ current_time_dt = none ∨
    orbital_period_days = some 0

/-- `calculate_position_at_time` (physics.py lines 94–188): the zero vector when the
validation guard fires, otherwise the full Kepler computation. -/
noncomputable def calculate_position_at_time (semi_major_axis eccentricity
    inclination_deg lon_asc_node_deg arg_periapsis_deg orbital_period_days
    mean_anomaly_epoch_deg : Option ℝ) (epoch_t0_str : Option EpochStr)
    (current_time_dt : Option ℝ) : Vec3 :=
  if keplerInputsInvalid semi_major_axis eccentricity inclination_deg lon_asc_node_deg
      arg_periapsis_deg orbital_period_days mean_anomaly_epoch_deg epoch_t0_str
      current_time_dt then
    ((0 : ℝ), (0 : ℝ), (0 : ℝ))
  else
    keplerPositionCore (semi_major_axis.getD 0) (eccentricity.getD 0)
      (inclination_deg.getD 0) (lon_asc_node_deg.getD 0) (arg_periapsis_deg.getD 0)
      (orbital_period_days.getD 0) (mean_anomaly_epoch_deg.getD 0)
      (epoch_t0_str.getD ⟨none⟩) (current_time_dt.getD 0)

/-- `np.linspace 0 hi n`: `n` evenly spaced samples `k·hi/(n-1)`, both endpoints
included (`n = 1` gives `[0]`, matching numpy, since division by zero is zero). -/
noncomputable def linspace (hi : ℝ) (num_points : ℕ) : List ℝ :=
  (List.range num_points).map fun k : ℕ => hi * (k : ℝ) / ((num_points : ℝ) - 1)

/-- One sample of the orbit path (physics.py lines 217–231): polar ellipse radius
`r = a(1-e²)/(1+e·cos ν)` and the 3-rotation into heliocentric coordinates. -/
noncomputable def orbitSample (a e i omega Omega nu : ℝ) : Vec3 :=
  let r := a * (1 - e ^ 2) / (1 + e * Real.cos nu)
  let xp := r * Real.cos nu
  let yp := r * Real.sin nu
  (xp * (Real.cos omega * Real.cos Omega - Real.sin omega * Real.sin Omega * Real.cos i) -
     yp * (Real.sin omega * Real.cos Omega + Real.cos omega * Real.sin Omega * Real.cos i),
   xp * (Real.cos omega * Real.sin Omega + Real.sin omega * Real.cos Omega * Real.cos i) +
     yp * (-(Real.sin omega * Real.sin Omega) + Real.cos omega * Real.cos Omega * Real.cos i),
   xp * (Real.sin omega * Real.sin i) + yp * (Real.cos omega * Real.sin i))

/-- `calculate_orbit_points` (physics.py lines 190–233).  Empty when an element is
`None`.  The degenerate-orbit guard is transcribed exactly as written (lines
214–215): the outer test is `|1 - e²| < 1e-9 and e ≥ 1`, with a redundant inner
`e ≥ 1` test; when the outer test is false Python falls through to the sampling
code, which is why both `else` branches sample. -/
noncomputable def calculate_orbit_points (semi_major_axis eccentricity inclination_deg
    lon_asc_node_deg arg_periapsis_deg : Option ℝ) (num_points : ℕ) : List Vec3 :=
  if semi_major_axis = none ∨ eccentricity = none ∨ inclination_deg = none ∨
      lon_asc_node_deg = none ∨ arg_periapsis_deg = none then
    []
  else
    let i := radians (inclination_deg.getD 0)
    let omega := radians (arg_periapsis_deg.getD 0)
    let Omega := radians (lon_asc_node_deg.getD 0)
    let nu_anomalies := linspace (2 * Real.pi) num_points
    let e := eccentricity.getD 0
    let a := semi_major_axis.getD 0
    if |1 - e ^ 2| < 1e-9 ∧ 1 ≤ e then
      if 1 ≤ e then []
      else nu_anomalies.map (orbitSample a e i omega Omega)
    else nu_anomalies.map (orbitSample a e i omega Omega)

/-- Screen/clamp constants from config.py (lines 8–9, 56–58). -/
def SCREEN_WIDTH : ℤ := 1400

/-- config.py line 9. -/
def SCREEN_HEIGHT : ℤ := 800

/-- config.py line 57. -/
def COORD_MIN : ℤ := -32760

/-- config.py line 58. -/
def COORD_MAX : ℤ := 32760

/-- A float intermediate of `project_3d_to_2d` just before the clamp: either a finite
value (modelled exactly by a real) or one of the IEEE non-finite values. -/
inductive FloatVal
  | finite (v : ℝ)
  | posInf
  | negInf
  | nan

/-- The screen-coordinate finiteness test and clamp, renderer.py lines 50–53:
a non-finite value maps to `COORD_MAX if s > 0 else COORD_MIN` (in Python
`+inf > 0` is true and both `-inf > 0` and `nan > 0` are false); a finite value is
clamped to `[COORD_MIN, COORD_MAX]` and truncated by `int(...)`. -/
noncomputable def clampScreenCoord : FloatVal → ℤ
  | .finite v => pyint (max ((COORD_MIN : ℤ) : ℝ) (min v ((COORD_MAX : ℤ) : ℝ)))
  | .posInf => COORD_MAX
  | .negInf => COORD_MIN
  | .nan => COORD_MIN

/-- `project_3d_to_2d` (renderer.py lines 22–54) over exact reals, where every
intermediate is finite and the clamp's finite branch applies.  Returns
`(sx_final, sy_final, perspective)`. -/
noncomputable def project_3d_to_2d (x_3d y_3d z_3d camera_z_offset scale_factor
    perspective_strength : ℝ) : ℤ × ℤ × ℝ :=
  let epsilon : ℝ := 1e-6
  let divisor := z_3d * perspective_strength + camera_z_offset + epsilon
  let perspective := if divisor ≤ epsilon then 0.0001 else 1 / divisor
  let projected_x_component := x_3d * scale_factor * perspective
  let projected_y_component := y_3d * scale_factor * perspective
  let sx_float := ((SCREEN_WIDTH / 2 : ℤ) : ℝ) + projected_x_component
  let sy_float := ((SCREEN_HEIGHT / 2 : ℤ) : ℝ) + projected_y_component
  (clampScreenCoord (.finite sx_float), clampScreenCoord (.finite sy_float), perspective)

/-- The slider → time-acceleration map of `Orrery.handle_ui_event` (renderer.py lines
407–431), as a function of the normalized distance of the handle from the slider
center (`normalized_dist ∈ [-1, 1]`): a deadzone `|u| < 0.05` forces the factor to
exactly 0; otherwise `factor = |u|^5 · 10^7`, negated when `u < 0`. -/
noncomputable def sliderAcceleration (normalized_dist : ℝ) : ℝ :=
  if |normalized_dist| < 0.05 then 0
  else
    let max_multiplier : ℝ := 10000000
    let exponent : ℕ := 5
    let factor := |normalized_dist| ^ exponent * max_multiplier
    if normalized_dist < 0 then -factor else factor

/-- The per-frame simulated-time update of `main` (main.py lines 160–165), with
`acceleration = orrery_sim.get_time_acceleration()`: the clock gains
`dt_seconds * acceleration` seconds when the factor is nonzero, else `dt_seconds`. -/
noncomputable def advanceSimTime (t dt_seconds acceleration : ℝ) : ℝ :=
  if acceleration ≠ 0 then t + dt_seconds * acceleration
  else t + dt_seconds

/-- A celestial body record as built by `Orrery.process_api_data` (renderer.py lines
256–266, 296–305), restricted to the fields the position composer reads.  `id` and
`parent_id` are the body identifiers, `depth` the ancestor count, the seven optional
fields the orbital elements, and the two vectors the per-tick derived positions. -/
structure Body where
  id : ℕ
  parent_id : Option ℕ
  depth : ℕ
  semiMajorAxis : Option ℝ
  orbitalEccentricity : Option ℝ
  orbitalInclination : Option ℝ
  ascendingNode : Option ℝ
  argOfPeriapsis : Option ℝ
  orbitalPeriod : Option ℝ
  meanAnomalyAtEpoch : Option ℝ
  epochTimestamp : Option EpochStr
  current_pos_au : Vec3
  orbit_center_pos_au : Vec3

/-- The local-position resolution for one body inside `Orrery.update` (renderer.py
lines 523–537): when `semiMajorAxis` is present, call `calculate_position_at_time`;
since that function always returns an array (never `None`), the `pos is not None`
test always succeeds and the `sma * 0.5` fallback arm is dead — it is transcribed
here verbatim inside the `match` for fidelity.  When `semiMajorAxis` is absent the
local position stays the zero vector. -/
noncomputable def localPosOf (b : Body) (t : ℝ) : Vec3 :=
  if b.semiMajorAxis.isSome then
    let pos : Option Vec3 := some (calculate_position_at_time b.semiMajorAxis
      b.orbitalEccentricity b.orbitalInclination b.ascendingNode b.argOfPeriapsis
      b.orbitalPeriod b.meanAnomalyAtEpoch b.epochTimestamp (some t))
    match pos with
    | some p => p
    | none =>
      let sma := b.semiMajorAxis.getD 0
      ((if sma ≠ 0 then sma * 0.5 else 0), (0 : ℝ), (0 : ℝ))
  else ((0 : ℝ), (0 : ℝ), (0 : ℝ))

/-- The first pass of `Orrery.update` (renderer.py lines 517–547): walk the body list
in order, resolve each local position, look the parent up in the accumulated
`body_positions` dictionary (defaulting to the zero vector when absent), record the
absolute position into the body and the dictionary.  The dictionary is modelled as a
function `ℕ → Option Vec3`; returns the updated list and the final dictionary. -/
noncomputable def updatePass (t : ℝ) : List Body → (ℕ → Option Vec3) →
    List Body × (ℕ → Option Vec3)
  | [], body_positions => ([], body_positions)
  | b :: rest, body_positions =>
    let local_pos := localPosOf b t
    let parent_pos : Vec3 := match b.parent_id with
      | none => ((0 : ℝ), (0 : ℝ), (0 : ℝ))
      | some pid => (body_positions pid).getD ((0 : ℝ), (0 : ℝ), (0 : ℝ))
    let absolute_pos := local_pos + parent_pos
    let b' := { b with current_pos_au := absolute_pos, orbit_center_pos_au := parent_pos }
    let positions' : ℕ → Option Vec3 :=
      fun k => if k = b.id then some absolute_pos else body_positions k
    let step := updatePass t rest positions'
    (b' :: step.1, step.2)

/-- `Orrery.update` (renderer.py lines 507–557): the first pass over all bodies, then —
only when a focus body is designated — one re-basing pass subtracting
`body_positions.get(orbit_center_body_id, 0)` from every body's `current_pos_au` and
`orbit_center_pos_au`.  Returns the updated body list together with
`current_focus_offset_au`. -/
noncomputable def Orrery.update (orbit_center_body_id : Option ℕ) (celestial_bodies : List Body)
    (current_time_dt : ℝ) : List Body × Vec3 :=
  let pass := updatePass current_time_dt celestial_bodies (fun _ => none)
  match orbit_center_body_id with
  | some fid =>
    let center_offset := (pass.2 fid).getD ((0 : ℝ), (0 : ℝ), (0 : ℝ))
    (pass.1.map fun b =>
      { b with current_pos_au := b.current_pos_au - center_offset,
               orbit_center_pos_au := b.orbit_center_pos_au - center_offset },
     center_offset)
  | none => (pass.1, ((0 : ℝ), (0 : ℝ), (0 : ℝ)))

/-- `temp_bodies.sort(key=lambda x: x['depth'])` (renderer.py line 326): Python's
stable ascending sort by depth, modelled by the stable `List.mergeSort`. -/
def sortByDepth (l : List Body) : List Body :=
  l.mergeSort fun a b => decide (a.depth ≤ b.depth)

/-- A body with the given identifier, parent and depth, carrying no orbital elements
and zeroed position fields — the state in which `process_api_data` creates a body
whose record has no element data.  Used to instantiate the composition theorems. -/
def mkBody (i : ℕ) (p : Option ℕ) (d : ℕ) : Body :=
  { id := i, parent_id := p, depth := d, semiMajorAxis := none,
    orbitalEccentricity := none, orbitalInclination := none, ascendingNode := none,
    argOfPeriapsis := none, orbitalPeriod := none, meanAnomalyAtEpoch := none,
    epochTimestamp := none, current_pos_au := ((0:ℝ), (0:ℝ), (0:ℝ)),
    orbit_center_pos_au := ((0:ℝ), (0:ℝ), (0:ℝ)) }

/-- A body whose semi-major axis is present (2 AU) but whose eccentricity is missing,
so its position solve is skipped by the validation guard. -/
def degenBody : Body :=
  { id := 7, parent_id := none, depth := 0, semiMajorAxis := some 2,
    orbitalEccentricity := none, orbitalInclination := some 0, ascendingNode := some 0,
    argOfPeriapsis := some 0, orbitalPeriod := some 1, meanAnomalyAtEpoch := some 0,
    epochTimestamp := some ⟨some 0⟩, current_pos_au := ((0:ℝ), (0:ℝ), (0:ℝ)),
    orbit_center_pos_au := ((0:ℝ), (0:ℝ), (0:ℝ)) }

/-- For a body whose semi-major axis is present, the conditions under which the
position solve is skipped: some other element (or the epoch timestamp) is missing,
or the orbital period is zero (renderer.py lines 525–531 feeding the guard of
physics.py lines 114–119; the query time is always supplied by `update`). -/
def solveSkipped (b : Body) : Prop :=
  b.orbitalEccentricity = none ∨ b.orbitalInclination = none ∨ b.ascendingNode = none ∨
    b.argOfPeriapsis = none ∨ b.orbitalPeriod = none ∨ b.meanAnomalyAtEpoch = none ∨
    b.epochTimestamp = none ∨ b.orbitalPeriod = some 0

/-- C4 counterexample: at acceleration factor 1 and frame time 1 s, starting the clock
at 0, the code advances the clock to `0 + 1·1 = 1` (dt × acceleration), not to
`0 + 1·(1 + 1) = 2` (dt × (1 + acceleration)) as the claim states. -/
theorem C4_counterexample :
    advanceSimTime 0 1 1 = 1 ∧ (0 : ℝ) + 1 * (1 + 1) = 2 ∧ (1 : ℝ) ≠ 2 := by
  refine ⟨?_, by norm_num, by norm_num⟩
  simp [advanceSimTime]

/-- C4 (amended): on every frame whose acceleration factor is nonzero, the simulated
clock advances by `frame_dt_seconds × acceleration`; on every frame whose
acceleration factor is zero it advances by `frame_dt_seconds` (real time). -/
theorem C4_time_advance (t dt a : ℝ) :
    (a ≠ 0 → advanceSimTime t dt a = t + dt * a) ∧
      (a = 0 → advanceSimTime t dt a = t + dt) := by
  constructor
  · intro h; simp [advanceSimTime, h]
  · intro h; simp [advanceSimTime, h]

/-- C4 witness: the amended statement evaluated at (t, dt, a) = (0, 1, 2) and
(0, 1, 0). -/
theorem C4_time_advance_witness :
    advanceSimTime 0 1 2 = 0 + 1 * 2 ∧ advanceSimTime 0 1 0 = 0 + 1 :=
  ⟨(C4_time_advance 0 1 2).1 (by norm_num), (C4_time_advance 0 1 0).2 rfl⟩

/-- C9: the slider-to-acceleration map sends every normalized input with |u| below the
0.05 deadzone to exactly 0, sends u = 1 to exactly the max multiplier 10^7, is
antisymmetric, and outside the deadzone equals sign(u)·|u|^5·10^7. -/
theorem C9_slider_map :
    (∀ u : ℝ, |u| < 0.05 → sliderAcceleration u = 0) ∧
      sliderAcceleration 1 = 10000000 ∧
      (∀ u : ℝ, sliderAcceleration (-u) = -sliderAcceleration u) ∧
      (∀ u : ℝ, ¬|u| < 0.05 →
        sliderAcceleration u = (if u < 0 then -1 else 1) * |u| ^ 5 * 10000000) := by
  refine ⟨?_, ?_, ?_, ?_⟩
  · intro u h; simp [sliderAcceleration, h]
  · have h1 : ¬|(1:ℝ)| < 0.05 := by rw [abs_of_pos] <;> norm_num
    have h2 : ¬(1:ℝ) < 0 := by norm_num
    simp [sliderAcceleration, h1, h2]
    norm_num
  · intro u
    by_cases h : |u| < 0.05
    · have h' : |(-u)| < 0.05 := by rwa [abs_neg]
      simp [sliderAcceleration, h, h']
    · have h' : ¬|(-u)| < 0.05 := by rwa [abs_neg]
      have hu : u ≠ 0 := by
        intro h0
        exact h (by rw [h0]; norm_num)
      rcases lt_trichotomy u 0 with hlt | heq | hgt
      · have hnn : ¬(-u < 0) := by linarith
        simp [sliderAcceleration, h, h', abs_neg, hlt, hnn]
      · exact absurd heq hu
      · have hn : -u < 0 := by linarith
        have hng : ¬(u < 0) := by linarith
        simp [sliderAcceleration, h, h', abs_neg, hn, hng]
  · intro u h
    by_cases hlt : u < 0
    · simp [sliderAcceleration, h, hlt]
    · simp [sliderAcceleration, h, hlt]

/-- C9 witness: deadzone at u = 0.01, exact max at u = 1, antisymmetry at u = 1. -/
theorem C9_slider_map_witness :
    sliderAcceleration 0.01 = 0 ∧ sliderAcceleration 1 = 10000000 ∧
      sliderAcceleration (-1) = -sliderAcceleration 1 :=
  ⟨C9_slider_map.1 0.01 (by rw [abs_of_pos] <;> norm_num), C9_slider_map.2.1,
    C9_slider_map.2.2.1 1⟩

/-- C5: the claim matches the code's own comment ("parabolic/hyperbolic cases, not
supported, return empty"), but the guard `|1 - e²| < 1e-9 and e ≥ 1` only catches
e ≈ 1: at e = 2 (a = 1, all angles 0) `calculate_orbit_points` samples the path and
returns all 120 requested points instead of the empty sequence. -/
theorem C5_hyperbolic_sampled :
    (calculate_orbit_points (some 1) (some 2) (some 0) (some 0) (some 0) 120).length
      = 120 := by
  have hguard : ¬(|1 - (2:ℝ) ^ 2| < 1e-9) := by
    rw [show |1 - (2:ℝ) ^ 2| = 3 by rw [abs_of_neg] <;> norm_num]
    norm_num
  simp only [calculate_orbit_points]
  rw [if_neg (by simp), if_neg (by simp [hguard])]
  rw [List.length_map]
  unfold linspace
  rw [List.length_map, List.length_range]

/-- Truncating a value already clamped to `[COORD_MIN, COORD_MAX]` stays in range. -/
theorem pyint_clamp_mem (v : ℝ) :
    COORD_MIN ≤ pyint (max ((COORD_MIN : ℤ) : ℝ) (min v ((COORD_MAX : ℤ) : ℝ))) ∧
      pyint (max ((COORD_MIN : ℤ) : ℝ) (min v ((COORD_MAX : ℤ) : ℝ))) ≤ COORD_MAX := by
  set w : ℝ := max ((COORD_MIN : ℤ) : ℝ) (min v ((COORD_MAX : ℤ) : ℝ)) with hw
  have hlo : ((COORD_MIN : ℤ) : ℝ) ≤ w := le_max_left _ _
  have hhi : w ≤ ((COORD_MAX : ℤ) : ℝ) := by
    apply max_le
    · norm_num [COORD_MIN, COORD_MAX]
    · exact min_le_right _ _
  unfold pyint
  by_cases h0 : 0 ≤ w
  · rw [if_pos h0]
    refine ⟨Int.le_floor.mpr hlo, ?_⟩
    have : ((⌊w⌋ : ℤ) : ℝ) ≤ ((COORD_MAX : ℤ) : ℝ) := le_trans (Int.floor_le w) hhi
    exact_mod_cast this
  · rw [if_neg h0]
    refine ⟨?_, Int.ceil_le.mpr hhi⟩
    have : ((COORD_MIN : ℤ) : ℝ) ≤ ((⌈w⌉ : ℤ) : ℝ) := le_trans hlo (Int.le_ceil w)
    exact_mod_cast this

/-- The clamp stage keeps every float value — finite or not — inside the safe range. -/
theorem clampScreenCoord_mem (s : FloatVal) :
    COORD_MIN ≤ clampScreenCoord s ∧ clampScreenCoord s ≤ COORD_MAX := by
  cases s with
  | finite v => exact pyint_clamp_mem v
  | posInf => exact ⟨by norm_num [clampScreenCoord, COORD_MIN, COORD_MAX], le_refl _⟩
  | negInf => exact ⟨le_refl _, by norm_num [clampScreenCoord, COORD_MIN, COORD_MAX]⟩
  | nan => exact ⟨le_refl _, by norm_num [clampScreenCoord, COORD_MIN, COORD_MAX]⟩

/-- C8: for every input point (and every camera offset, scale and perspective
strength), both screen coordinates produced by `project_3d_to_2d` are integers inside
the fixed safe range `[COORD_MIN, COORD_MAX] = [-32760, 32760]`; and a non-finite
intermediate coordinate is mapped by the clamp stage to the extreme of that range
matching its sign (`+∞ ↦ COORD_MAX`, `-∞ ↦ COORD_MIN`), never propagated. -/
theorem C8_projection_clamped :
    (∀ x y z d s k : ℝ,
        COORD_MIN ≤ (project_3d_to_2d x y z d s k).1 ∧
          (project_3d_to_2d x y z d s k).1 ≤ COORD_MAX ∧
          COORD_MIN ≤ (project_3d_to_2d x y z d s k).2.1 ∧
          (project_3d_to_2d x y z d s k).2.1 ≤ COORD_MAX) ∧
      clampScreenCoord .posInf = COORD_MAX ∧ clampScreenCoord .negInf = COORD_MIN := by
  refine ⟨fun x y z d s k => ?_, rfl, rfl⟩
  have hx := clampScreenCoord_mem
    (.finite (((SCREEN_WIDTH / 2 : ℤ) : ℝ) +
      x * s * (if z * k + d + 1e-6 ≤ 1e-6 then (0.0001 : ℝ) else 1 / (z * k + d + 1e-6))))
  have hy := clampScreenCoord_mem
    (.finite (((SCREEN_HEIGHT / 2 : ℤ) : ℝ) +
      y * s * (if z * k + d + 1e-6 ≤ 1e-6 then (0.0001 : ℝ) else 1 / (z * k + d + 1e-6))))
  exact ⟨hx.1, hx.2, hy.1, hy.2⟩

/-- C6 counterexample: `degenBody` has a present semi-major axis (2 AU) but a missing
eccentricity, so its position solve is skipped; the composer assigns it the origin as
local position — not `(0.5 · a, 0, 0) = (1, 0, 0)` as the claim states (the
`sma * 0.5` arm is dead because `calculate_position_at_time` never returns `None`). -/
theorem C6_counterexample :
    localPosOf degenBody 0 = ((0:ℝ), 0, 0) ∧
      ((0:ℝ), (0:ℝ), (0:ℝ)) ≠ ((1:ℝ), (0:ℝ), (0:ℝ)) := by
  constructor
  · simp [localPosOf, degenBody, calculate_position_at_time, keplerInputsInvalid]
  · simp [Prod.ext_iff]

/-- C6 (amended): a body whose semi-major axis is present but whose position solve is
skipped (another element missing, or period zero) is assigned the zero-vector local
position returned by `calculate_position_at_time`; the `(0.5·a, 0, 0)` fallback in
`Orrery.update` is unreachable. -/
theorem C6_degenerate_local_pos (b : Body) (t : ℝ) (hs : b.semiMajorAxis.isSome)
    (hsk : solveSkipped b) : localPosOf b t = ((0:ℝ), 0, 0) := by
  have hz : calculate_position_at_time b.semiMajorAxis b.orbitalEccentricity
      b.orbitalInclination b.ascendingNode b.argOfPeriapsis b.orbitalPeriod
      b.meanAnomalyAtEpoch b.epochTimestamp (some t) = ((0:ℝ), 0, 0) := by
    rw [calculate_position_at_time, if_pos]
    unfold keplerInputsInvalid
    unfold solveSkipped at hsk
    tauto
  simp [localPosOf, hs, hz]

/-- C6 witness: the amended statement evaluated at `degenBody` and t = 0. -/
theorem C6_degenerate_local_pos_witness : localPosOf degenBody 0 = ((0:ℝ), 0, 0) :=
  C6_degenerate_local_pos degenBody 0 rfl (Or.inl rfl)

/-- C7 counterexample: with every element present, period 1 and a parseable epoch (so
no precondition fails) but semi-major axis 0, the full Kepler computation returns
exactly the zero vector — refuting the "only if" direction of the claimed
equivalence. -/
theorem C7_counterexample :
    ¬ keplerInputsInvalid (some 0) (some 0) (some 0) (some 0) (some 0) (some 1)
        (some 0) (some ⟨some 0⟩) (some 0) ∧
      calculate_position_at_time (some 0) (some 0) (some 0) (some 0) (some 0) (some 1)
        (some 0) (some ⟨some 0⟩) (some 0) = ((0:ℝ), 0, 0) := by
  have hvalid : ¬ keplerInputsInvalid (some 0) (some 0) (some 0) (some 0) (some 0)
      (some 1) (some 0) (some ⟨some 0⟩) (some 0) := by
    intro h
    rcases h with h | h | h | h | h | h | h | h | h | h <;> simp at h
  refine ⟨hvalid, ?_⟩
  rw [calculate_position_at_time, if_neg hvalid]
  simp [keplerPositionCore]

/-- C7 (amended): `calculate_position_at_time` returns the zero vector IF a
precondition fails (an element, the epoch string or the query time missing, or the
period zero); under valid inputs it proceeds to the full Kepler computation
`keplerPositionCore` — which may itself produce the zero vector (e.g. at semi-major
axis 0), so the zero return does not characterize precondition failure. -/
theorem C7_zero_on_invalid (a e i Om om T M0 : Option ℝ) (t0 : Option EpochStr)
    (t : Option ℝ) :
    (keplerInputsInvalid a e i Om om T M0 t0 t →
        calculate_position_at_time a e i Om om T M0 t0 t = ((0:ℝ), 0, 0)) ∧
      (¬ keplerInputsInvalid a e i Om om T M0 t0 t →
        calculate_position_at_time a e i Om om T M0 t0 t =
          keplerPositionCore (a.getD 0) (e.getD 0) (i.getD 0) (Om.getD 0) (om.getD 0)
            (T.getD 0) (M0.getD 0) (t0.getD ⟨none⟩) (t.getD 0)) := by
  constructor
  · intro h; rw [calculate_position_at_time, if_pos h]
  · intro h; rw [calculate_position_at_time, if_neg h]

/-- C7 witness: the amended statement evaluated at an invalid input (all `None`) and
a valid one (a = 1, e = 0, period 1). -/
theorem C7_zero_on_invalid_witness :
    calculate_position_at_time none none none none none none none none none
        = ((0:ℝ), 0, 0) ∧
      calculate_position_at_time (some 1) (some 0) (some 0) (some 0) (some 0) (some 1)
          (some 0) (some ⟨some 0⟩) (some 0)
        = keplerPositionCore ((some (1:ℝ)).getD 0) ((some (0:ℝ)).getD 0)
            ((some (0:ℝ)).getD 0) ((some (0:ℝ)).getD 0) ((some (0:ℝ)).getD 0)
            ((some (1:ℝ)).getD 0) ((some (0:ℝ)).getD 0)
            ((some (⟨some 0⟩ : EpochStr)).getD ⟨none⟩) ((some (0:ℝ)).getD 0) := by
  constructor
  · exact (C7_zero_on_invalid none none none none none none none none none).1
      (Or.inl rfl)
  · exact (C7_zero_on_invalid (some 1) (some 0) (some 0) (some 0) (some 0) (some 1)
      (some 0) (some ⟨some 0⟩) (some 0)).2
      (by intro h; rcases h with h | h | h | h | h | h | h | h | h | h <;> simp at h)

/-- The first pass of `Orrery.update` touches no identifiers: the output list carries
the same ids in the same order. -/
theorem updatePass_map_id (t : ℝ) (bodies : List Body) (m : ℕ → Option Vec3) :
    ((updatePass t bodies m).1).map Body.id = bodies.map Body.id := by
  induction bodies generalizing m with
  | nil => rfl
  | cons b rest ih => simp [updatePass, ih]

/-- A key not among the processed bodies' ids is left untouched in the position
dictionary. -/
theorem updatePass_lookup_not_mem (t : ℝ) (bodies : List Body) (m : ℕ → Option Vec3)
    (k : ℕ) (hk : k ∉ bodies.map Body.id) :
    (updatePass t bodies m).2 k = m k := by
  induction bodies generalizing m with
  | nil => rfl
  | cons b rest ih =>
    simp only [List.map_cons, List.mem_cons, not_or] at hk
    simp only [updatePass]
    rw [ih _ hk.2]
    simp [hk.1]

/-- When the processed ids are distinct, the final position dictionary maps each
present id to the absolute position recorded in the corresponding output body. -/
theorem updatePass_lookup_mem (t : ℝ) (bodies : List Body) (m : ℕ → Option Vec3)
    (hnd : (bodies.map Body.id).Nodup) (k : ℕ) (hk : k ∈ bodies.map Body.id) :
    ∃ b' ∈ (updatePass t bodies m).1, b'.id = k ∧
      (updatePass t bodies m).2 k = some b'.current_pos_au := by
  induction bodies generalizing m with
  | nil => simp at hk
  | cons b rest ih =>
    simp only [List.map_cons, List.nodup_cons] at hnd
    simp only [updatePass]
    by_cases hbk : k = b.id
    · subst hbk
      refine ⟨_, List.mem_cons_self _ _, rfl, ?_⟩
      rw [updatePass_lookup_not_mem t rest _ b.id hnd.1]
      simp
    · simp only [List.map_cons, List.mem_cons] at hk
      rcases hk with hk | hk
      · exact absurd hk hbk
      · obtain ⟨b', hb'mem, hb'id, hb'pos⟩ := ih _ hnd.2 hk
        exact ⟨b', List.mem_cons_of_mem _ hb'mem, hb'id, hb'pos⟩

/-- C10: during an update tick, a body whose parent id is absent from the resolved
position dictionary at the moment it is processed is composed as if its parent sat at
the origin (the `body_positions.get` lookup defaults to the zero vector, which is
also recorded as the body's parent offset), and the pass always assigns every body a
position — the output list has one entry per input body, so the tick never fails. -/
theorem C10_missing_parent_defaults_to_origin :
    (∀ (t : ℝ) (b : Body) (rest : List Body) (m : ℕ → Option Vec3) (pid : ℕ),
        b.parent_id = some pid → m pid = none →
        ∃ tl, (updatePass t (b :: rest) m).1 =
          ({ b with current_pos_au := localPosOf b t + ((0:ℝ), 0, 0),
                    orbit_center_pos_au := ((0:ℝ), 0, 0) }) :: tl) ∧
      (∀ (t : ℝ) (bodies : List Body) (m : ℕ → Option Vec3),
        ((updatePass t bodies m).1).length = bodies.length) := by
  constructor
  · intro t b rest m pid hb hm
    simp only [updatePass, hb, hm, Option.getD_none]
    exact ⟨_, rfl⟩
  · intro t bodies m
    induction bodies generalizing m with
    | nil => rfl
    | cons b rest ih => simp [updatePass, ih]

/-- C10 witness: a single body whose parent id 99 is nowhere in the (empty)
dictionary is composed with parent position (0,0,0). -/
theorem C10_missing_parent_defaults_to_origin_witness :
    ∃ tl, (updatePass 0 [mkBody 1 (some 99) 1] (fun _ => none)).1 =
      ({ (mkBody 1 (some 99) 1) with
          current_pos_au := localPosOf (mkBody 1 (some 99) 1) 0 + ((0:ℝ), 0, 0),
          orbit_center_pos_au := ((0:ℝ), 0, 0) }) :: tl :=
  C10_missing_parent_defaults_to_origin.1 0 (mkBody 1 (some 99) 1) [] (fun _ => none)
    99 rfl rfl

/-- C3: for a 3-level parent chain root→A→B with depths 0, 1, 2 and arbitrary
orbital elements (hence arbitrary local offsets), the depth sort keeps the chain in
ancestor-first order, and one update tick without any re-basing yields
`B.absolute = B.local + A.local + root.local` — each parent's absolute position is
already resolved when its child is composed. -/
theorem C3_three_level_chain (root A B : Body) (t : ℝ)
    (hpr : root.parent_id = none) (hpA : A.parent_id = some root.id)
    (hpB : B.parent_id = some A.id)
    (hd0 : root.depth = 0) (hd1 : A.depth = 1) (hd2 : B.depth = 2) :
    sortByDepth [root, A, B] = [root, A, B] ∧
      ∃ r' A' B', (Orrery.update none (sortByDepth [root, A, B]) t).1 = [r', A', B'] ∧
        B'.current_pos_au = localPosOf B t + localPosOf A t + localPosOf root t := by
  have hsort : sortByDepth [root, A, B] = [root, A, B] := by
    unfold sortByDepth
    apply List.mergeSort_of_sorted
    simp [List.pairwise_cons, hd0, hd1, hd2]
  refine ⟨hsort, ?_⟩
  rw [hsort]
  simp only [Orrery.update, updatePass, hpr, hpA, hpB, Option.getD_none]
  refine ⟨_, _, _, rfl, ?_⟩
  simp [Prod.mk_zero_zero, add_assoc]

/-- C3 witness: the chain statement evaluated on concrete bodies with ids 0, 1, 2,
parent links 0→1→2 and depths 0, 1, 2, at t = 0. -/
theorem C3_three_level_chain_witness :
    sortByDepth [mkBody 0 none 0, mkBody 1 (some 0) 1, mkBody 2 (some 1) 2] =
        [mkBody 0 none 0, mkBody 1 (some 0) 1, mkBody 2 (some 1) 2] ∧
      ∃ r' A' B',
        (Orrery.update none
          (sortByDepth [mkBody 0 none 0, mkBody 1 (some 0) 1, mkBody 2 (some 1) 2])
          0).1 = [r', A', B'] ∧
        B'.current_pos_au = localPosOf (mkBody 2 (some 1) 2) 0 +
          localPosOf (mkBody 1 (some 0) 1) 0 + localPosOf (mkBody 0 none 0) 0 :=
  C3_three_level_chain (mkBody 0 none 0) (mkBody 1 (some 0) 1) (mkBody 2 (some 1) 2)
    0 rfl rfl rfl rfl rfl rfl

/-- C2: on a tick with a designated focus body (id `fid`, present among bodies with
distinct ids), `Orrery.update` equals the focus-free first pass followed by a single
re-basing pass applied to the completed pass output — i.e. re-basing happens only
after every body's absolute position is computed.  The subtracted offset `c` is the
focus body's pre-rebase absolute position; every body's absolute position and stored
parent offset are shifted by exactly `−c`; and afterwards the focus body's absolute
position is exactly (0,0,0). -/
theorem C2_rebasing (bodies : List Body) (t : ℝ) (fid : ℕ)
    (hnd : (bodies.map Body.id).Nodup) (hmem : fid ∈ bodies.map Body.id) :
    ∃ c : Vec3,
      (Orrery.update (some fid) bodies t).2 = c ∧
      (∀ F ∈ (Orrery.update none bodies t).1, F.id = fid → F.current_pos_au = c) ∧
      (Orrery.update (some fid) bodies t).1 =
        ((Orrery.update none bodies t).1).map (fun b =>
          { b with current_pos_au := b.current_pos_au - c,
                   orbit_center_pos_au := b.orbit_center_pos_au - c }) ∧
      (∀ F ∈ (Orrery.update (some fid) bodies t).1, F.id = fid →
        F.current_pos_au = ((0:ℝ), 0, 0)) := by
  obtain ⟨b', hb'mem, hb'id, hb'pos⟩ :=
    updatePass_lookup_mem t bodies (fun _ => none) hnd fid hmem
  have hndpass : (((updatePass t bodies fun _ => none).1).map Body.id).Nodup := by
    rw [updatePass_map_id]; exact hnd
  refine ⟨b'.current_pos_au, ?_, ?_, ?_, ?_⟩
  · simp only [Orrery.update]
    rw [hb'pos]
    rfl
  · intro F hF hFid
    simp only [Orrery.update] at hF
    have hFb : F = b' :=
      List.inj_on_of_nodup_map hndpass hF hb'mem (by rw [hFid, hb'id])
    rw [hFb]
  · simp only [Orrery.update]
    rw [hb'pos]
    rfl
  · intro F hF hFid
    simp only [Orrery.update] at hF
    rw [hb'pos] at hF
    simp only [Option.getD_some] at hF
    obtain ⟨G, hGmem, hGF⟩ := List.mem_map.mp hF
    have hGid : G.id = b'.id := by
      have hFG : F.id = G.id := by rw [← hGF]
      rw [hb'id, ← hFid, hFG]
    have hGb : G = b' := List.inj_on_of_nodup_map hndpass hGmem hb'mem hGid
    rw [← hGF, hGb]
    simp [Prod.mk_zero_zero]

/-- C2 witness: the re-basing statement evaluated on the one-body system
`[mkBody 0 none 0]` with focus id 0 at t = 0. -/
theorem C2_rebasing_witness :
    ∃ c : Vec3,
      (Orrery.update (some 0) [mkBody 0 none 0] 0).2 = c ∧
      (∀ F ∈ (Orrery.update none [mkBody 0 none 0] 0).1, F.id = 0 →
        F.current_pos_au = c) ∧
      (Orrery.update (some 0) [mkBody 0 none 0] 0).1 =
        ((Orrery.update none [mkBody 0 none 0] 0).1).map (fun b =>
          { b with current_pos_au := b.current_pos_au - c,
                   orbit_center_pos_au := b.orbit_center_pos_au - c }) ∧
      (∀ F ∈ (Orrery.update (some 0) [mkBody 0 none 0] 0).1, F.id = 0 →
        F.current_pos_au = ((0:ℝ), 0, 0)) :=
  C2_rebasing [mkBody 0 none 0] 0 0 (by simp [mkBody]) (by simp [mkBody])
